import Mathlib

/-!
Verification development for the FashionistAI repository.

The repository consists of a TypeScript backend (`src/dist/server.js`): an
Express HTTP layer (the `/api/analyze-pose`, `/recommend-size`, `/brands`
routes) plus a Socket.IO session relay pairing a PC display with a mobile
capture device, a React frontend, and a Python measurement microservice
(referenced by `setup.ps1`/`run.ps1` as `microservices/python`, not part of
this snapshot).  The measurement-estimation core, the calibration and the
size-recommendation engine live in that Python microservice; where a claim
depends on them they are modelled from the spec (each such definition says
so in its doc comment).  Everything about `server.js` is embedded directly
from its code.
-/

namespace FashionistAI

/-! ## The `/api/analyze-pose` handler of `src/dist/server.js`

The handler receives a multipart request.  Multer writes every supplied
image to a temporary file before the handler body runs.  The body then
checks that both `image_front` and `image_side` were supplied, pushes the
two temporary paths onto `filesCleanup`, checks the `height` form field for
JavaScript truthiness, forwards the images to the Python microservice, and
deletes the files of `filesCleanup` before answering, both on the success
path and in the `catch` block.  We model the handler as the list of
observable actions it performs, in order. -/

/-- A multipart request to `/api/analyze-pose`: the temporary file path of
each uploaded image when the field was supplied, and the raw `height` form
field. -/
structure AnalyzeRequest where
  imageFront : Option String
  imageSide : Option String
  height : Option String
deriving DecidableEq

/-- Outcome of the axios call to the Python microservice, as distinguished
by the `catch` block of the handler: a successful JSON payload, a timeout
(`ECONNABORTED`), a refused connection (`ECONNREFUSED`), or any other
error with its message. -/
inductive ServiceOutcome where
  | ok (data : String)
  | connTimeout
  | connRefused
  | otherError (msg : String)
deriving DecidableEq

/-- An HTTP response: its code and its `detail` (resp. body) field. -/
structure Response where
  status : Nat
  detail : String
deriving DecidableEq

/-- The observable actions of the handler, in order: multer writing an
uploaded file, the axios call to the Python microservice, `fs.unlinkSync`
of a temporary file, and sending the HTTP response. -/
inductive Action where
  | upload (path : String)
  | callService
  | deleteFile (path : String)
  | send (r : Response)
deriving DecidableEq

/-- JavaScript truthiness of the `height` form field: multipart form
fields arrive as strings, so `!height` holds exactly when the field is
absent or the empty string. -/
def jsTruthy : Option String → Bool
  | none => false
  | some s => !(s == "")

/-- `detail` of the 400 response when an image field is missing. -/
def bothImagesMsg : String := "Both image_front and image_side are required"

/-- `detail` of the 400 response when the `height` field is falsy. -/
def heightMsg : String := "Height parameter is required"

/-- The response the handler sends after the axios call, from the success
path and the three branches of the `catch` block. -/
def responseFor : ServiceOutcome → Response
  | ServiceOutcome.ok data => ⟨200, data⟩
  | ServiceOutcome.connTimeout => ⟨504, "Le microservice Python ne répond pas (timeout)."⟩
  | ServiceOutcome.connRefused => ⟨502, "Connexion refusée vers le microservice Python."⟩
  | ServiceOutcome.otherError msg => ⟨500, msg⟩

/-- The ordered action trace of one `/api/analyze-pose` request: multer
uploads whichever image fields are present; the handler then returns 400
if either image is missing, returns 400 if `height` is falsy, and
otherwise calls the microservice, deletes both temporary files and sends
the response determined by the call's outcome. -/
def analyzePose (req : AnalyzeRequest) (outcome : ServiceOutcome) : List Action :=
  (match req.imageFront with
    | some p => [Action.upload p]
    | none => []) ++
  (match req.imageSide with
    | some p => [Action.upload p]
    | none => []) ++
  (match req.imageFront, req.imageSide with
    | some pf, some ps =>
        if jsTruthy req.height then
          [Action.callService,
           Action.deleteFile pf, Action.deleteFile ps,
           Action.send (responseFor outcome)]
        else
          [Action.send ⟨400, heightMsg⟩]
    | _, _ => [Action.send ⟨400, bothImagesMsg⟩])

/-- Whether the handler called the Python microservice during the request. -/
def serviceCalled (trace : List Action) : Bool :=
  trace.any (fun a =>
    match a with
    | Action.callService => true
    | _ => false)

/-- The HTTP response sent by the handler (every trace sends exactly one). -/
def responseOf (req : AnalyzeRequest) (outcome : ServiceOutcome) : Response :=
  ((analyzePose req outcome).filterMap (fun a =>
    match a with
    | Action.send r => some r
    | _ => none)).headD ⟨0, ""⟩

/-- The temporary files still on disk after a trace: uploads create them,
`fs.unlinkSync` removes them. -/
def filesAfter (trace : List Action) : List String :=
  trace.foldl (fun fs a =>
    match a with
    | Action.upload p => fs ++ [p]
    | Action.deleteFile p => fs.filter (fun q => !(q == p))
    | _ => fs) []

/-- `true` when no file deletion occurs after a response has been sent. -/
def noDeleteAfterSend : List Action → Bool
  | [] => true
  | a :: rest =>
      match a with
      | Action.send _ =>
          rest.all (fun b =>
            match b with
            | Action.deleteFile _ => false
            | _ => true) && noDeleteAfterSend rest
      | _ => noDeleteAfterSend rest

/-! ## The Socket.IO session relay of `src/dist/server.js`

The server keeps two JavaScript `Map`s: `sessions` from session id to a
session record, and `socketToSession` from socket id to session id.  We
embed the maps as association lists with `Map.get`/`Map.set`/`Map.delete`
semantics (iteration order of the maps is never used by the relay code, so
it is not modelled).  The `createdAt` timestamp field is set but never
read; it is omitted. -/

/-- A session record: `pcSocketId`, `mobileSocketId` (a single nullable
field, `null` modelled as `none`) and `status`. -/
structure Session where
  pcSocketId : String
  mobileSocketId : Option String
  status : String
deriving DecidableEq

/-- `Map.get`: the value stored under a key, if any. -/
def mapGet {α : Type} (m : List (String × α)) (k : String) : Option α :=
  (m.find? (fun p => p.1 == k)).map (fun p => p.2)

/-- `Map.set`: store a value under a key, replacing any previous binding. -/
def mapSet {α : Type} (m : List (String × α)) (k : String) (v : α) :
    List (String × α) :=
  (k, v) :: m.filter (fun p => !(p.1 == k))

/-- `Map.delete`: remove the binding of a key. -/
def mapDelete {α : Type} (m : List (String × α)) (k : String) :
    List (String × α) :=
  m.filter (fun p => !(p.1 == k))

/-- The state of the relay: the two maps. -/
structure RelayState where
  sessions : List (String × Session)
  socketToSession : List (String × String)
deriving DecidableEq

/-- The relay state at server start: both maps empty. -/
def initialRelay : RelayState := ⟨[], []⟩

/-- The socket events handled by the relay that touch its state
(`photo-captured` and `trigger-capture` only forward messages). -/
inductive Event where
  | pcJoin (socketId sessionId : String)
  | mobileJoin (socketId sessionId : String)
  | disconnect (socketId : String)
deriving DecidableEq

/-- The messages the relay emits while handling an event (the ones the
claims observe). -/
inductive Emit where
  | errorMsg (toSocket message : String)
  | mobileConnected (toSocket : String)
  | sessionReady (toSocket : String)
deriving DecidableEq

/-- One step of the relay, from the `pc-join`, `mobile-join` and
`disconnect` handlers of `server.js`: the successor state and the emitted
messages.

* `pc-join` creates the session with the socket as PC when the id is
  unknown, otherwise overwrites `pcSocketId`, and records the socket in
  `socketToSession`.
* `mobile-join` on an unknown id emits `error` and returns; otherwise it
  overwrites `mobileSocketId`, sets the status to `connected`, records the
  socket, and emits `mobile-connected` to the PC and `session-ready` to
  the mobile.
* `disconnect` looks the socket up in `socketToSession`; if its session
  exists and the socket is the PC it only logs, else if it is the mobile
  it nulls `mobileSocketId` and resets the status to `waiting`; in every
  case the socket is removed from `socketToSession`. -/
def step (st : RelayState) : Event → RelayState × List Emit
  | Event.pcJoin s sid =>
      match mapGet st.sessions sid with
      | none =>
          (⟨mapSet st.sessions sid ⟨s, none, "waiting"⟩,
            mapSet st.socketToSession s sid⟩, [])
      | some sess =>
          (⟨mapSet st.sessions sid { sess with pcSocketId := s },
            mapSet st.socketToSession s sid⟩, [])
  | Event.mobileJoin s sid =>
      match mapGet st.sessions sid with
      | none => (st, [Emit.errorMsg s "Session not found"])
      | some sess =>
          (⟨mapSet st.sessions sid
              { sess with mobileSocketId := some s, status := "connected" },
            mapSet st.socketToSession s sid⟩,
           [Emit.mobileConnected sess.pcSocketId, Emit.sessionReady s])
  | Event.disconnect s =>
      match mapGet st.socketToSession s with
      | none => (st, [])
      | some sid =>
          match mapGet st.sessions sid with
          | none => (⟨st.sessions, mapDelete st.socketToSession s⟩, [])
          | some sess =>
              if sess.pcSocketId == s then
                (⟨st.sessions, mapDelete st.socketToSession s⟩, [])
              else if sess.mobileSocketId == some s then
                (⟨mapSet st.sessions sid
                    { sess with mobileSocketId := none, status := "waiting" },
                  mapDelete st.socketToSession s⟩, [])
              else
                (⟨st.sessions, mapDelete st.socketToSession s⟩, [])

/-! ## The measurement core of the Python microservice

The Python microservice (`microservices/python`, absent from this
snapshot; `server.js` only proxies to it) implements calibration,
measurement estimation, confidence aggregation and size recommendation.
The definitions of this section are therefore modelled from the spec
(sections 3, 4.1–4.4, 6), as their doc comments say. -/

/-- Modelled from the spec: a detected anatomical landmark of the Python
microservice's pose output, with pixel coordinates and a detection
confidence in [0, 1] (spec section 3, Keypoint). -/
structure Keypoint where
  x : ℚ
  y : ℚ
  confidence : ℚ
deriving DecidableEq

/-- Modelled from the spec: the 17-point KeypointSet the pose detector
returns per image (spec section 3, KeypointSet). -/
structure KeypointSet where
  nose : Keypoint
  leftEye : Keypoint
  rightEye : Keypoint
  leftEar : Keypoint
  rightEar : Keypoint
  leftShoulder : Keypoint
  rightShoulder : Keypoint
  leftElbow : Keypoint
  rightElbow : Keypoint
  leftWrist : Keypoint
  rightWrist : Keypoint
  leftHip : Keypoint
  rightHip : Keypoint
  leftKnee : Keypoint
  rightKnee : Keypoint
  leftAnkle : Keypoint
  rightAnkle : Keypoint
deriving DecidableEq

/-- A KeypointSet with the same keypoint everywhere (test helper). -/
def uniformKS (k : Keypoint) : KeypointSet :=
  ⟨k, k, k, k, k, k, k, k, k, k, k, k, k, k, k, k, k⟩

/-- Modelled from the spec: the fixed reliability/detection threshold on
keypoint confidences (spec sections 4.1 and 4.2 give 0.3 as the default). -/
def detectionThreshold : ℚ := mkRat 3 10

/-- A keypoint counts as reliably detected when its confidence reaches
the threshold. -/
def reliable (k : Keypoint) : Bool := decide (detectionThreshold ≤ k.confidence)

/-- Modelled from the spec: the error taxonomy of the measurement core
that the claims need (spec section 7). -/
inductive CalibError where
  | invalidHeight
  | insufficientKeypoints
deriving DecidableEq

/-- Modelled from the spec: the empirical head margin fraction of the
calibrator (spec section 4.1; an unfixed default). -/
def headMarginFactor : ℚ := mkRat 1 8

/-- Modelled from the spec: the empirical foot margin fraction of the
calibrator (spec section 4.1; an unfixed default). -/
def footMarginFactor : ℚ := mkRat 1 25

/-- Modelled from the spec: the minimum sane pixel height (spec section
4.1 gives 20px). -/
def minPixelHeight : ℚ := 20

/-- Modelled from the spec: the topmost reliably detected vertical-extent
point, preferring the nose, then the eye midpoint, then the shoulder
midpoint (spec section 4.1). -/
def topPoint (ks : KeypointSet) : Option ℚ :=
  if reliable ks.nose then some ks.nose.y
  else if reliable ks.leftEye && reliable ks.rightEye then
    some ((ks.leftEye.y + ks.rightEye.y) / 2)
  else if reliable ks.leftShoulder && reliable ks.rightShoulder then
    some ((ks.leftShoulder.y + ks.rightShoulder.y) / 2)
  else none

/-- Modelled from the spec: the bottommost reliably detected
vertical-extent point, preferring the ankle midpoint, falling back to the
knee midpoint (spec section 4.1). -/
def bottomPoint (ks : KeypointSet) : Option ℚ :=
  if reliable ks.leftAnkle && reliable ks.rightAnkle then
    some ((ks.leftAnkle.y + ks.rightAnkle.y) / 2)
  else if reliable ks.leftKnee && reliable ks.rightKnee then
    some ((ks.leftKnee.y + ks.rightKnee.y) / 2)
  else none

/-- Modelled from the spec: `calibrate` of the Python microservice (spec
section 4.1).  Heights that are not positive or exceed 250 cm are
rejected as `InvalidHeight`; fewer than two reliable vertical-extent
points, or an adjusted pixel height below the sane minimum, are rejected
as `InsufficientKeypoints`; otherwise the cm-per-pixel scale factor is
the known height over the margin-adjusted pixel extent. -/
def calibrate (ks : KeypointSet) (knownHeight : ℚ) : Except CalibError ℚ :=
  if knownHeight ≤ 0 ∨ 250 < knownHeight then Except.error CalibError.invalidHeight
  else
    match topPoint ks, bottomPoint ks with
    | some yTop, some yBottom =>
        let rawPixelHeight := |yBottom - yTop|
        let adjusted := rawPixelHeight * (1 + headMarginFactor + footMarginFactor)
        if adjusted ≤ minPixelHeight then Except.error CalibError.insufficientKeypoints
        else Except.ok (knownHeight / adjusted)
    | _, _ => Except.error CalibError.insufficientKeypoints

/-- Modelled from the spec: a named measurement's value (in cm) and the
confidence derived from its contributing keypoints (spec section 3,
Measurement).  A value 0 with confidence 0 is the could-not-compute
sentinel. -/
structure Measurement where
  value : ℝ
  confidence : ℚ

/-- Squared pixel distance between two keypoints. -/
def dist2 (a b : Keypoint) : ℚ := (a.x - b.x) ^ 2 + (a.y - b.y) ^ 2

/-- Euclidean pixel distance between two keypoints. -/
noncomputable def kpDist (a b : Keypoint) : ℝ :=
  Real.sqrt ((dist2 a b : ℚ) : ℝ)

/-- Modelled from the spec: `shoulder_width` of the estimator (spec
section 4.2): the Euclidean pixel distance between the two shoulder
keypoints times the scale factor, requiring both shoulders at or above
the detection threshold, with confidence the minimum of the two; else the
`value 0, confidence 0` soft failure. -/
noncomputable def shoulderWidth (ks : KeypointSet) (scale : ℚ) : Measurement :=
  if detectionThreshold ≤ ks.leftShoulder.confidence ∧
      detectionThreshold ≤ ks.rightShoulder.confidence then
    ⟨kpDist ks.leftShoulder ks.rightShoulder * (scale : ℝ),
     min ks.leftShoulder.confidence ks.rightShoulder.confidence⟩
  else ⟨0, 0⟩

/-- Modelled from the spec: the single-view confidence penalty for
circumference estimates (spec section 4.2 gives 0.8). -/
def singleViewPenalty : ℚ := mkRat 8 10

/-- Modelled from the spec: the single-view confidence cap for
circumference estimates (spec section 4.2 gives 0.6). -/
def singleViewCap : ℚ := mkRat 6 10

/-- Modelled from the spec: the empirical chest circumference-to-width
constant of the single-view fallback (spec section 4.2 gives the band
2.5–2.9; an unfixed default inside it). -/
def chestWidthFactor : ℚ := mkRat 27 10

/-- Modelled from the spec: the Ramanujan-style elliptical circumference
`π (a+b) (1 + 3h / (10 + √(4 − 3h)))` with `h = ((a−b)/(a+b))²` used by
the two-view fusion (spec section 4.2); degenerate semi-axes give 0. -/
noncomputable def ellipticalCircumference (a b : ℝ) : ℝ :=
  if a + b = 0 then 0
  else
    Real.pi * (a + b) *
      (1 + 3 * (((a - b) / (a + b)) ^ 2) /
        (10 + Real.sqrt (4 - 3 * (((a - b) / (a + b)) ^ 2))))

/-- Modelled from the spec: the side-view depth proxy of the two-view
fusion: the frontal chest width rescaled by the shoulder-to-hip pixel
distance ratio between the views (spec section 4.2). -/
noncomputable def depthProxy (front side : KeypointSet) (scale : ℚ) : ℝ :=
  let frontTorso := kpDist front.leftShoulder front.leftHip
  let sideTorso := kpDist side.leftShoulder side.leftHip
  (if frontTorso = 0 then 1 else sideTorso / frontTorso) *
    (kpDist front.leftShoulder front.rightShoulder * (scale : ℝ))

/-- Modelled from the spec: `chest_circumference` of the estimator (spec
sections 4.2 and 8).  Both views available: the elliptical estimate from
the frontal half-width and the depth-proxy half-depth, with the
confidence of the contributing front keypoints (fusion refines the value
and, per the spec's testable property, never decreases trust).  Front
view only: the ratio-constant fallback, with the confidence discounted by
the single-view penalty and capped.  Shoulders below the detection
threshold give the `value 0, confidence 0` soft failure. -/
noncomputable def chestCircumference (front : KeypointSet)
    (side : Option KeypointSet) (scale : ℚ) : Measurement :=
  if detectionThreshold ≤ front.leftShoulder.confidence ∧
      detectionThreshold ≤ front.rightShoulder.confidence then
    let width := kpDist front.leftShoulder front.rightShoulder * (scale : ℝ)
    let baseConf := min front.leftShoulder.confidence front.rightShoulder.confidence
    match side with
    | some sideKs =>
        ⟨ellipticalCircumference (width / 2) (depthProxy front sideKs scale / 2),
         baseConf⟩
    | none =>
        ⟨(chestWidthFactor : ℝ) * width,
         min (singleViewPenalty * baseConf) singleViewCap⟩
  else ⟨0, 0⟩

/-- Modelled from the spec: `aggregate` of the ConfidenceAggregator (spec
section 4.3): the equal-weight average of the per-measurement
confidences; the empty list gives 0. -/
def aggregate (ms : List Measurement) : ℚ :=
  if ms.length = 0 then 0
  else (ms.map Measurement.confidence).sum / (ms.length : ℚ)

/-- Modelled from the spec: `analyze` of the measurement core (spec
section 6): calibrate from the front view, then estimate the measurements
the claims need and aggregate their confidences; a calibration failure
aborts the analysis. -/
noncomputable def analyzeSvc (front : KeypointSet) (side : Option KeypointSet)
    (knownHeight : ℚ) : Except CalibError (List Measurement × ℚ) :=
  match calibrate front knownHeight with
  | Except.error e => Except.error e
  | Except.ok scale =>
      let ms := [shoulderWidth front scale, chestCircumference front side scale]
      Except.ok (ms, aggregate ms)

/-! ## The size recommender of the Python microservice -/

/-- Modelled from the spec: a closed measurement range `[lo, hi]` of a
size chart (spec section 3, SizeChart). -/
structure SizeRange where
  lo : ℚ
  hi : ℚ
deriving DecidableEq

/-- Modelled from the spec: the required measurement inputs of the
recommender, at minimum chest and waist circumference (spec section 4.4;
the frontend sends exactly these two). -/
structure MeasInput where
  chest : ℚ
  waist : ℚ
deriving DecidableEq

/-- Modelled from the spec: one row of a gender's size table: the size
label and the range of every required measurement (spec section 3). -/
structure SizeEntry where
  label : String
  chest : SizeRange
  waist : SizeRange
deriving DecidableEq

/-- A gender's size table, listed in the brand's defined size ordering,
smallest label first (spec section 3: loaded static reference data). -/
abbrev SizeTable : Type := List SizeEntry

/-- Modelled from the spec: the per-gender tables of one brand+category
cell of the chart; a gender without a table yields no recommendation for
it. -/
structure GenderTables where
  male : Option SizeTable
  female : Option SizeTable

/-- The reference data: brand → category → per-gender size tables. -/
abbrev ChartDB : Type := List (String × List (String × GenderTables))

/-- Modelled from the spec: the lookup failures of the recommender (spec
sections 4.4 and 7). -/
inductive RecError where
  | unknownBrand
  | unknownCategory
deriving DecidableEq

/-- Modelled from the spec: the recommendation result: an optional size
per gender, `none` being the distinguished no-match outcome (spec
section 4.4). -/
structure Recommendation where
  maleSize : Option String
  femaleSize : Option String
deriving DecidableEq

/-- Whether a size entry's ranges contain every required measurement. -/
def fits (m : MeasInput) (e : SizeEntry) : Bool :=
  decide (e.chest.lo ≤ m.chest) && decide (m.chest ≤ e.chest.hi) &&
  decide (e.waist.lo ≤ m.waist) && decide (m.waist ≤ e.waist.hi)

/-- Modelled from the spec: the per-gender matching algorithm (spec
section 4.4): the first — hence smallest in the brand's ordering — size
label whose ranges contain every required measurement; `none` when no
size fits. -/
def recommendForGender (table : SizeTable) (m : MeasInput) : Option String :=
  (List.find? (fits m) table).map SizeEntry.label

/-- Modelled from the spec: `recommend` of the Python microservice (spec
sections 4.4 and 6): look the brand and category up in the reference
data, failing with `UnknownBrand` / `UnknownCategory`, then match each
gender's table. -/
def recommend (db : ChartDB) (brand category : String) (m : MeasInput) :
    Except RecError Recommendation :=
  match mapGet db brand with
  | none => Except.error RecError.unknownBrand
  | some cats =>
      match mapGet cats category with
      | none => Except.error RecError.unknownCategory
      | some gt =>
          Except.ok
            ⟨gt.male.bind (fun t => recommendForGender t m),
             gt.female.bind (fun t => recommendForGender t m)⟩

/-! ## Theorems -/

/-- The value stored by `Map.set` is what `Map.get` then returns. -/
theorem mapGet_mapSet_self {α : Type} (m : List (String × α)) (k : String)
    (v : α) : mapGet (mapSet m k v) k = some v := by
  unfold mapGet mapSet
  rw [List.find?_cons_of_pos _ (by simp)]
  rfl

/-- C1: the claim says a request with a front image and a height proceeds
to analysis even without a side image; in `server.js` the handler instead
rejects it with 400 `Both image_front and image_side are required` and
never calls the pose-analysis service: at the concrete request with a
front image and height 175 but no side image, no service call happens and
the response is that 400. -/
theorem analyzeRequiresSideImage_cex :
    serviceCalled (analyzePose ⟨some "front.jpg", none, some "175"⟩
      (ServiceOutcome.ok "data")) = false ∧
    responseOf ⟨some "front.jpg", none, some "175"⟩ (ServiceOutcome.ok "data") =
      ⟨400, bothImagesMsg⟩ :=
  ⟨rfl, rfl⟩

/-- C1 (amended): the analyze operation requires both images: every
request that supplies a front image and a truthy height but no side image
fails with 400 `Both image_front and image_side are required`, and the
pose-analysis service is not called. -/
theorem analyzeRequiresSideImage (req : AnalyzeRequest) (outcome : ServiceOutcome)
    (hf : req.imageFront.isSome = true) (hs : req.imageSide = none)
    (_hh : jsTruthy req.height = true) :
    responseOf req outcome = ⟨400, bothImagesMsg⟩ ∧
    serviceCalled (analyzePose req outcome) = false := by
  obtain ⟨pf, hpf⟩ := Option.isSome_iff_exists.mp hf
  constructor
  · simp [responseOf, analyzePose, hpf, hs]
  · simp [serviceCalled, analyzePose, hpf, hs]

/-- C1 (amended), instantiated: the request with front image `f.jpg`,
height `175` and no side image is rejected with the 400 and no service
call. -/
theorem analyzeRequiresSideImage_wit :
    responseOf ⟨some "f.jpg", none, some "175"⟩ ServiceOutcome.connTimeout =
      ⟨400, bothImagesMsg⟩ ∧
    serviceCalled (analyzePose ⟨some "f.jpg", none, some "175"⟩
      ServiceOutcome.connTimeout) = false :=
  analyzeRequiresSideImage _ _ rfl rfl rfl

/-- C8: the claim says every analyze request that omits the height fails
with 400 detail `Height parameter is required`; a request that also omits
the images instead gets the 400 detail
`Both image_front and image_side are required`, so the claimed universal
message does not hold (the no-service-call part does). -/
theorem heightRequired_cex :
    jsTruthy (AnalyzeRequest.mk none none none).height = false ∧
    responseOf ⟨none, none, none⟩ (ServiceOutcome.ok "d") ≠ ⟨400, heightMsg⟩ ∧
    responseOf ⟨none, none, none⟩ (ServiceOutcome.ok "d") = ⟨400, bothImagesMsg⟩ := by
  refine ⟨rfl, by decide, rfl⟩

/-- C8 (amended): every analyze request that supplies both images but
omits the height parameter (a falsy `height` field) fails with 400 detail
`Height parameter is required`, and no call to the pose-analysis service
is made. -/
theorem heightRequired (req : AnalyzeRequest) (outcome : ServiceOutcome)
    (hf : req.imageFront.isSome = true) (hs : req.imageSide.isSome = true)
    (hh : jsTruthy req.height = false) :
    responseOf req outcome = ⟨400, heightMsg⟩ ∧
    serviceCalled (analyzePose req outcome) = false := by
  obtain ⟨pf, hpf⟩ := Option.isSome_iff_exists.mp hf
  obtain ⟨ps, hps⟩ := Option.isSome_iff_exists.mp hs
  constructor
  · simp [responseOf, analyzePose, hpf, hps, hh]
  · simp [serviceCalled, analyzePose, hpf, hps, hh]

/-- C8 (amended), instantiated: both images present and no height field
gives the 400 height message and no service call. -/
theorem heightRequired_wit :
    responseOf ⟨some "a.jpg", some "b.jpg", none⟩ (ServiceOutcome.ok "d") =
      ⟨400, heightMsg⟩ ∧
    serviceCalled (analyzePose ⟨some "a.jpg", some "b.jpg", none⟩
      (ServiceOutcome.ok "d")) = false :=
  heightRequired _ _ rfl rfl rfl

/-- C10: every analyze-pose request that passes input validation (both
images supplied, truthy height) ends with no temporary file left on disk,
and no file deletion happens after the response is sent — so both
uploaded files are deleted before the response, on the success path and
on every error path of the microservice call alike. -/
theorem tempFilesDeleted (req : AnalyzeRequest) (outcome : ServiceOutcome)
    (pf ps : String) (hf : req.imageFront = some pf)
    (hs : req.imageSide = some ps) (hh : jsTruthy req.height = true) :
    filesAfter (analyzePose req outcome) = [] ∧
    noDeleteAfterSend (analyzePose req outcome) = true := by
  have htrace : analyzePose req outcome =
      [Action.upload pf, Action.upload ps, Action.callService,
       Action.deleteFile pf, Action.deleteFile ps,
       Action.send (responseFor outcome)] := by
    simp [analyzePose, hf, hs, hh]
  rw [htrace]
  constructor
  · by_cases hp : ps = pf <;> simp [filesAfter, hp]
  · simp [noDeleteAfterSend]

/-- C10, instantiated: a validated request with files `u1.jpg`, `u2.jpg`
leaves no file behind and deletes nothing after the response, for a
success outcome and for an error outcome. -/
theorem tempFilesDeleted_wit :
    (filesAfter (analyzePose ⟨some "u1.jpg", some "u2.jpg", some "180"⟩
        (ServiceOutcome.ok "d")) = [] ∧
      noDeleteAfterSend (analyzePose ⟨some "u1.jpg", some "u2.jpg", some "180"⟩
        (ServiceOutcome.ok "d")) = true) ∧
    (filesAfter (analyzePose ⟨some "u1.jpg", some "u2.jpg", some "180"⟩
        ServiceOutcome.connRefused) = [] ∧
      noDeleteAfterSend (analyzePose ⟨some "u1.jpg", some "u2.jpg", some "180"⟩
        ServiceOutcome.connRefused) = true) :=
  ⟨tempFilesDeleted _ _ "u1.jpg" "u2.jpg" rfl rfl rfl,
   tempFilesDeleted _ _ "u1.jpg" "u2.jpg" rfl rfl rfl⟩

/-- C9: the claim says a mobile disconnect always resets the session's
mobile socket id to null and its status to `waiting`; in `server.js` the
disconnect handler checks the PC branch first, so in the reachable state
where one socket joined a session as PC and then as mobile, its
disconnect leaves the mobile socket id and the status untouched: after
`pc-join s1 A`, `mobile-join s1 A`, the session records mobile `s1`, and
after `disconnect s1` it still does. -/
theorem sessionRelayMobilePeer_cex :
    mapGet ((step (step (step initialRelay (Event.pcJoin "s1" "A")).1
        (Event.mobileJoin "s1" "A")).1 (Event.disconnect "s1")).1).sessions "A" =
      some ⟨"s1", some "s1", "connected"⟩ ∧
    mapGet ((step (step initialRelay (Event.pcJoin "s1" "A")).1
        (Event.mobileJoin "s1" "A")).1).sessions "A" =
      some ⟨"s1", some "s1", "connected"⟩ :=
  ⟨rfl, rfl⟩

/-- C9 (amended): in every state of the session relay, each session
records at most one active mobile peer: a mobile-join on an existing
session overwrites the single stored mobile socket id (never adds a
second); a mobile-join on an unknown session id emits a
`Session not found` error and leaves the whole relay state unchanged; and
a disconnect of the socket recorded as a session's mobile peer resets
that session's mobile socket id to null and its status to `waiting`,
provided the socket is not also recorded as the session's PC socket (the
PC branch of the handler wins in that case and leaves the mobile socket
id unchanged). -/
theorem sessionRelayMobilePeer (st : RelayState) (s sid : String) :
    (∀ sess : Session, mapGet st.sessions sid = some sess →
      mapGet ((step st (Event.mobileJoin s sid)).1).sessions sid =
        some { sess with mobileSocketId := some s, status := "connected" }) ∧
    (mapGet st.sessions sid = none →
      (step st (Event.mobileJoin s sid)).1 = st ∧
      (step st (Event.mobileJoin s sid)).2 = [Emit.errorMsg s "Session not found"]) ∧
    (∀ sess : Session, mapGet st.socketToSession s = some sid →
      mapGet st.sessions sid = some sess →
      sess.pcSocketId ≠ s → sess.mobileSocketId = some s →
      mapGet ((step st (Event.disconnect s)).1).sessions sid =
        some { sess with mobileSocketId := none, status := "waiting" }) := by
  refine ⟨?_, ?_, ?_⟩
  · intro sess h
    simp [step, h, mapGet_mapSet_self]
  · intro h
    simp [step, h]
  · intro sess hsts hsess hpc hmob
    have hpcb : (sess.pcSocketId == s) = false := by
      simp only [beq_eq_false_iff_ne, ne_eq]
      exact hpc
    simp [step, hsts, hsess, hpcb, hmob, mapGet_mapSet_self]

/-- C9 (amended), instantiated on the session store holding session `A`
with PC `pc1` and mobile `m1`: a mobile-join of `m2` overwrites the
mobile socket id with `m2`; a mobile-join on the unknown session `B`
changes nothing; and the disconnect of `m1` resets session `A` to no
mobile and status `waiting`. -/
theorem sessionRelayMobilePeer_wit :
    mapGet ((step ⟨[("A", ⟨"pc1", some "m1", "connected"⟩)], [("m1", "A")]⟩
        (Event.mobileJoin "m2" "A")).1).sessions "A" =
      some ⟨"pc1", some "m2", "connected"⟩ ∧
    (step ⟨[("A", ⟨"pc1", some "m1", "connected"⟩)], [("m1", "A")]⟩
        (Event.mobileJoin "m2" "B")).1 =
      ⟨[("A", ⟨"pc1", some "m1", "connected"⟩)], [("m1", "A")]⟩ ∧
    mapGet ((step ⟨[("A", ⟨"pc1", some "m1", "connected"⟩)], [("m1", "A")]⟩
        (Event.disconnect "m1")).1).sessions "A" =
      some ⟨"pc1", none, "waiting"⟩ := by
  refine ⟨?_, ?_, ?_⟩
  · exact (sessionRelayMobilePeer
      ⟨[("A", ⟨"pc1", some "m1", "connected"⟩)], [("m1", "A")]⟩ "m2" "A").1
      ⟨"pc1", some "m1", "connected"⟩ rfl
  · exact ((sessionRelayMobilePeer
      ⟨[("A", ⟨"pc1", some "m1", "connected"⟩)], [("m1", "A")]⟩ "m2" "B").2.1 rfl).1
  · exact (sessionRelayMobilePeer
      ⟨[("A", ⟨"pc1", some "m1", "connected"⟩)], [("m1", "A")]⟩ "m1" "A").2.2
      ⟨"pc1", some "m1", "connected"⟩ rfl rfl (by decide) rfl

/-- `List.find?` returns the first element satisfying the predicate:
there is a position holding the result, and every earlier position fails
the predicate. -/
theorem find?_first {α : Type} (p : α → Bool) :
    ∀ (l : List α) (a : α), List.find? p l = some a →
      ∃ i : Fin l.length, l.get i = a ∧ p a = true ∧
        ∀ j : Fin l.length, (j : ℕ) < (i : ℕ) → p (l.get j) = false := by
  intro l
  induction l with
  | nil => intro a h; simp at h
  | cons x xs ih =>
      intro a h
      by_cases hx : p x = true
      · rw [List.find?_cons_of_pos _ hx] at h
        injection h with h
        subst h
        refine ⟨⟨0, Nat.succ_pos _⟩, rfl, hx, ?_⟩
        intro j hj
        exact absurd hj (Nat.not_lt_zero _)
      · rw [List.find?_cons_of_neg _ hx] at h
        obtain ⟨i, hget, hpa, hprev⟩ := ih a h
        refine ⟨⟨i.val + 1, Nat.succ_lt_succ i.isLt⟩, hget, hpa, ?_⟩
        intro j hj
        rcases j with ⟨jv, hjlt⟩
        cases jv with
        | zero => simpa using hx
        | succ jj =>
            exact hprev ⟨jj, Nat.lt_of_succ_lt_succ hjlt⟩
              (Nat.lt_of_succ_lt_succ hj)

/-- C2: for a known brand, category and gender table, when `recommend`
returns a size it is the table entry whose ranges contain every required
measurement and that comes first — smallest — in the brand's defined
ordering: every earlier size of the ordering fails to contain the
measurements, so overlapping candidate sizes resolve to the smallest
label. -/
theorem recommendSmallestFit (db : ChartDB) (brand category : String)
    (m : MeasInput) (cats : List (String × GenderTables)) (gt : GenderTables)
    (table : SizeTable) (l : String)
    (hb : mapGet db brand = some cats) (hc : mapGet cats category = some gt)
    (hmale : gt.male = some table)
    (hl : recommendForGender table m = some l) :
    (∃ r : Recommendation, recommend db brand category m = Except.ok r ∧
      r.maleSize = some l) ∧
    ∃ i : Fin table.length, (table.get i).label = l ∧
      fits m (table.get i) = true ∧
      ∀ j : Fin table.length, (j : ℕ) < (i : ℕ) → fits m (table.get j) = false := by
  constructor
  · refine ⟨⟨gt.male.bind (fun t => recommendForGender t m),
      gt.female.bind (fun t => recommendForGender t m)⟩, ?_, ?_⟩
    · simp [recommend, hb, hc]
    · simpa [hmale] using hl
  · unfold recommendForGender at hl
    cases hf : List.find? (fits m) table with
    | none => rw [hf] at hl; simp at hl
    | some e =>
        rw [hf] at hl
        simp only [Option.map_some', Option.some.injEq] at hl
        obtain ⟨i, hget, hpa, hprev⟩ := find?_first (fits m) table e hf
        refine ⟨i, ?_, ?_, hprev⟩
        · rw [hget]; exact hl
        · rw [hget]; exact hpa

/-- C2, instantiated: with the male tops table of brand `uniqlo` listing
sizes S then M with overlapping ranges, the measurements chest 90 and
waist 72 fit both sizes and the recommendation is the smaller label S. -/
theorem recommendSmallestFit_wit :
    (∃ r : Recommendation,
      recommend
        [("uniqlo", [("tops",
          { male := some [⟨"S", ⟨80, 95⟩, ⟨60, 80⟩⟩, ⟨"M", ⟨88, 96⟩, ⟨70, 78⟩⟩],
            female := none })])]
        "uniqlo" "tops" ⟨90, 72⟩ = Except.ok r ∧ r.maleSize = some "S") ∧
    ∃ i : Fin (([⟨"S", ⟨80, 95⟩, ⟨60, 80⟩⟩, ⟨"M", ⟨88, 96⟩, ⟨70, 78⟩⟩] :
        SizeTable).length),
      (([⟨"S", ⟨80, 95⟩, ⟨60, 80⟩⟩, ⟨"M", ⟨88, 96⟩, ⟨70, 78⟩⟩] :
          SizeTable).get i).label = "S" ∧
      fits ⟨90, 72⟩ (([⟨"S", ⟨80, 95⟩, ⟨60, 80⟩⟩, ⟨"M", ⟨88, 96⟩, ⟨70, 78⟩⟩] :
          SizeTable).get i) = true ∧
      ∀ j : Fin (([⟨"S", ⟨80, 95⟩, ⟨60, 80⟩⟩, ⟨"M", ⟨88, 96⟩, ⟨70, 78⟩⟩] :
          SizeTable).length), (j : ℕ) < (i : ℕ) →
        fits ⟨90, 72⟩ (([⟨"S", ⟨80, 95⟩, ⟨60, 80⟩⟩, ⟨"M", ⟨88, 96⟩, ⟨70, 78⟩⟩] :
            SizeTable).get j) = false :=
  recommendSmallestFit _ "uniqlo" "tops" ⟨90, 72⟩ _ _ _ "S" rfl rfl rfl rfl

/-- C4: for a known brand and category, when the input measurements lie
outside every size's ranges of every gender table, `recommend` returns a
successful result whose per-gender sizes are the distinguished no-match
value `none`, which differs from every found-fit value `some l`. -/
theorem recommendNoMatch (db : ChartDB) (brand category : String)
    (m : MeasInput) (cats : List (String × GenderTables)) (gt : GenderTables)
    (hb : mapGet db brand = some cats) (hc : mapGet cats category = some gt)
    (hmale : ∀ table : SizeTable, gt.male = some table →
      ∀ e ∈ table, fits m e = false)
    (hfem : ∀ table : SizeTable, gt.female = some table →
      ∀ e ∈ table, fits m e = false) :
    ∃ r : Recommendation, recommend db brand category m = Except.ok r ∧
      r.maleSize = none ∧ r.femaleSize = none ∧
      ∀ l : String, r.maleSize ≠ some l ∧ r.femaleSize ≠ some l := by
  have hnone : ∀ (o : Option SizeTable),
      (∀ table : SizeTable, o = some table → ∀ e ∈ table, fits m e = false) →
      o.bind (fun t => recommendForGender t m) = none := by
    intro o ho
    cases o with
    | none => rfl
    | some t =>
        have hfind : List.find? (fits m) t = none :=
          List.find?_eq_none.mpr (fun x hx => by simp [ho t rfl x hx])
        simp [recommendForGender, hfind]
  have hm1 : gt.male.bind (fun t => recommendForGender t m) = none :=
    hnone _ hmale
  have hm2 : gt.female.bind (fun t => recommendForGender t m) = none :=
    hnone _ hfem
  refine ⟨⟨none, none⟩, ?_, rfl, rfl, ?_⟩
  · simp [recommend, hb, hc, hm1, hm2]
  · intro l
    exact ⟨fun h => Option.noConfusion h, fun h => Option.noConfusion h⟩

/-- C4, instantiated: measurements chest 200 and waist 200 exceed the
single M size of brand `uniqlo`, and the recommendation succeeds with
no-match for both genders. -/
theorem recommendNoMatch_wit :
    ∃ r : Recommendation,
      recommend
        [("uniqlo", [("tops",
          { male := some [⟨"M", ⟨88, 96⟩, ⟨70, 78⟩⟩], female := none })])]
        "uniqlo" "tops" ⟨200, 200⟩ = Except.ok r ∧
      r.maleSize = none ∧ r.femaleSize = none ∧
      ∀ l : String, r.maleSize ≠ some l ∧ r.femaleSize ≠ some l := by
  refine recommendNoMatch _ "uniqlo" "tops" ⟨200, 200⟩ _ _ rfl rfl ?_ ?_
  · intro t ht e he
    injection ht with ht
    subst ht
    rw [List.mem_singleton] at he
    subst he
    decide
  · intro t ht
    exact Option.noConfusion ht

/-- C3: for every height that is not positive or exceeds 250 cm,
calibration fails with `InvalidHeight`, and so does the whole analyze
operation — no scale factor and no measurements are produced. -/
theorem calibrateInvalidHeight (ks : KeypointSet) (side : Option KeypointSet)
    (h : ℚ) (hh : h ≤ 0 ∨ 250 < h) :
    calibrate ks h = Except.error CalibError.invalidHeight ∧
    analyzeSvc ks side h = Except.error CalibError.invalidHeight := by
  have hc : calibrate ks h = Except.error CalibError.invalidHeight := by
    unfold calibrate
    rw [if_pos hh]
  refine ⟨hc, ?_⟩
  unfold analyzeSvc
  rw [hc]

/-- C3, instantiated: heights −1 and 300 are both rejected as
`InvalidHeight` by calibration and by the analyze operation. -/
theorem calibrateInvalidHeight_wit :
    (calibrate (uniformKS ⟨0, 0, 1⟩) (-1) =
        Except.error CalibError.invalidHeight ∧
      analyzeSvc (uniformKS ⟨0, 0, 1⟩) none (-1) =
        Except.error CalibError.invalidHeight) ∧
    (calibrate (uniformKS ⟨0, 0, 1⟩) 300 =
        Except.error CalibError.invalidHeight ∧
      analyzeSvc (uniformKS ⟨0, 0, 1⟩) none 300 =
        Except.error CalibError.invalidHeight) :=
  ⟨calibrateInvalidHeight _ _ _ (Or.inl (by norm_num)),
   calibrateInvalidHeight _ _ _ (Or.inr (by norm_num))⟩

/-- C5: on the same front keypoints, the chest-circumference confidence
with both views available is at least the confidence of the
front-view-only fallback: two-view fusion never decreases trust. -/
theorem chestFusionConfidence (front sideKs : KeypointSet) (scale : ℚ) :
    (chestCircumference front none scale).confidence ≤
    (chestCircumference front (some sideKs) scale).confidence := by
  unfold chestCircumference
  by_cases hth : detectionThreshold ≤ front.leftShoulder.confidence ∧
      detectionThreshold ≤ front.rightShoulder.confidence
  · rw [if_pos hth, if_pos hth]
    dsimp only
    have hb : (0 : ℚ) ≤
        min front.leftShoulder.confidence front.rightShoulder.confidence := by
      have hmin := le_min hth.1 hth.2
      have h0 : (0 : ℚ) ≤ detectionThreshold := by norm_num [detectionThreshold]
      linarith
    refine le_trans (min_le_left _ _) ?_
    exact mul_le_of_le_one_left hb (by norm_num [singleViewPenalty])
  · rw [if_neg hth, if_neg hth]

/-- C6: when both shoulder keypoints reach the detection threshold, the
shoulder-width value is non-negative for a non-negative scale factor and
is linear in the scale factor: doubling the scale doubles the value. -/
theorem shoulderWidthLinear (ks : KeypointSet) (scale : ℚ)
    (h1 : detectionThreshold ≤ ks.leftShoulder.confidence)
    (h2 : detectionThreshold ≤ ks.rightShoulder.confidence)
    (hs : 0 ≤ scale) :
    0 ≤ (shoulderWidth ks scale).value ∧
    (shoulderWidth ks (2 * scale)).value = 2 * (shoulderWidth ks scale).value := by
  unfold shoulderWidth
  rw [if_pos ⟨h1, h2⟩, if_pos ⟨h1, h2⟩]
  dsimp only
  constructor
  · exact mul_nonneg (Real.sqrt_nonneg _) (by exact_mod_cast hs)
  · push_cast
    ring

/-- C6, instantiated: with both shoulders at confidence 0.9 and scale 2,
the shoulder width is non-negative and doubling the scale to 4 doubles
it. -/
theorem shoulderWidthLinear_wit :
    0 ≤ (shoulderWidth
      { uniformKS ⟨0, 0, 0⟩ with
          leftShoulder := ⟨0, 0, mkRat 9 10⟩,
          rightShoulder := ⟨4, 3, mkRat 9 10⟩ } 2).value ∧
    (shoulderWidth
      { uniformKS ⟨0, 0, 0⟩ with
          leftShoulder := ⟨0, 0, mkRat 9 10⟩,
          rightShoulder := ⟨4, 3, mkRat 9 10⟩ } (2 * 2)).value =
      2 * (shoulderWidth
        { uniformKS ⟨0, 0, 0⟩ with
            leftShoulder := ⟨0, 0, mkRat 9 10⟩,
            rightShoulder := ⟨4, 3, mkRat 9 10⟩ } 2).value :=
  shoulderWidthLinear _ 2 (by decide) (by decide) (by decide)

/-- C7: overall confidence is the equal-weight average of the
per-measurement confidences; a measurement with confidence 0 is counted
in the average as a 0 contribution (it is not excluded), so adding a
failed measurement to a list of positive overall confidence strictly
lowers the overall confidence. -/
theorem aggregateZeroLowers (m : Measurement) (ms : List Measurement)
    (hm : m.confidence = 0) (hpos : 0 < aggregate ms) :
    aggregate (m :: ms) =
      ((m :: ms).map Measurement.confidence).sum / (((m :: ms).length : ℕ) : ℚ) ∧
    ((m :: ms).map Measurement.confidence).sum =
      (ms.map Measurement.confidence).sum ∧
    aggregate (m :: ms) < aggregate ms := by
  have hne : ms.length ≠ 0 := by
    intro h0
    rw [aggregate, if_pos h0] at hpos
    exact lt_irrefl _ hpos
  have hsum : ((m :: ms).map Measurement.confidence).sum =
      (ms.map Measurement.confidence).sum := by
    simp [hm]
  have hagg : aggregate (m :: ms) =
      ((m :: ms).map Measurement.confidence).sum / (((m :: ms).length : ℕ) : ℚ) := by
    rw [aggregate, if_neg (by simp)]
  refine ⟨hagg, hsum, ?_⟩
  have hn : (0 : ℚ) < (ms.length : ℚ) := by
    exact_mod_cast Nat.pos_of_ne_zero hne
  have haggms : aggregate ms =
      (ms.map Measurement.confidence).sum / ((ms.length : ℕ) : ℚ) := by
    rw [aggregate, if_neg hne]
  have hS : (0 : ℚ) < (ms.map Measurement.confidence).sum := by
    rw [haggms] at hpos
    rcases (div_pos_iff.mp hpos) with ⟨h1, _⟩ | ⟨_, h2⟩
    · exact h1
    · exact absurd hn (not_lt.mpr (le_of_lt h2))
  rw [hagg, hsum, haggms]
  have hlen : (((m :: ms).length : ℕ) : ℚ) = (ms.length : ℚ) + 1 := by
    push_cast [List.length_cons]
    ring
  rw [hlen]
  exact div_lt_div_of_pos_left hS hn (lt_add_one _)

/-- C7, instantiated: prepending a failed measurement (confidence 0) to a
single full-confidence measurement halves the overall confidence: the
average is computed over both entries and strictly drops. -/
theorem aggregateZeroLowers_wit :
    aggregate ((⟨0, 0⟩ : Measurement) :: [(⟨1, 1⟩ : Measurement)]) =
      (((⟨0, 0⟩ : Measurement) :: [(⟨1, 1⟩ : Measurement)]).map
        Measurement.confidence).sum /
        (((((⟨0, 0⟩ : Measurement) :: [(⟨1, 1⟩ : Measurement)]).length : ℕ)) : ℚ) ∧
    (((⟨0, 0⟩ : Measurement) :: [(⟨1, 1⟩ : Measurement)]).map
        Measurement.confidence).sum =
      (([(⟨1, 1⟩ : Measurement)]).map Measurement.confidence).sum ∧
    aggregate ((⟨0, 0⟩ : Measurement) :: [(⟨1, 1⟩ : Measurement)]) <
      aggregate [(⟨1, 1⟩ : Measurement)] :=
  aggregateZeroLowers ⟨0, 0⟩ [⟨1, 1⟩] rfl (by norm_num [aggregate])

end FashionistAI
